import Mathlib

/-!
Shallow embedding of the agro back-office workflow core:

* `src/src/pages/api/orders/process/index.ts` — order processing
  (`handler`, `validateStockAvailability`),
* `src/unnamed/part_005` — approvisionnement workflow
  (`handler`, `handleBusinessDeveloperValidation`, `handleBusinessDeveloperRejection`,
   `handleStockReceival`, `handleStockRejection`),
* `src/src/pages/api/stocks/management/index.ts` — stock management
  (`handleStockAdjustment`, `handleStockTransfer`, `handleStockAlert`).

Modelling conventions:

* The Prisma tables are lists kept in insertion order inside a `DB` record;
  `findFirst` / `findUnique` is `List.find?` on that order, `create` appends
  at the end, `update ... where id` maps over the list replacing the rows
  whose id matches.
* Decimal quantities/prices are modelled as `Int` (overselling must be able
  to drive a quantity negative, so a non-negative type would be wrong).
* `prisma.$transaction(cb)` is a function from the database to
  `Except String DB` (plus a result): on `error` the caller keeps the
  pre-transaction database (rollback), on `ok` the returned database is the
  committed one.
* Store writes that the claims need to be fallible (`transaction_logs.create`
  and `notifications.create`) are guarded by an `Env` of failure flags;
  `Env.ok` is the run in which every store call succeeds.
* `Date` fields that never influence control flow are either dropped or
  modelled by a `now : Nat` tick passed to each operation.
* HTTP transport, the `x-user-data` header parse and the zod schema parse are
  outside the embedding: every operation takes an already-authenticated
  `User` and an already-validated request record, exactly the data the
  handlers work with after those guards.
-/

namespace Agro

inductive Role
  | client
  | admin
  | stock_manager
  | business_developer
  | supplier
  deriving DecidableEq

structure User where
  id : String
  role : Role
  deriving DecidableEq

inductive PayMethod
  | direct
  | credit
  deriving DecidableEq

inductive OrderStatus
  | pending
  | paid
  | shipped
  | delivered
  | cancelled
  deriving DecidableEq

inductive PaymentStatus
  | pending
  | completed
  | failed
  deriving DecidableEq

inductive ApproStatus
  | pending
  | validated_bd
  | rejected
  | received
  deriving DecidableEq

inductive DeliveryStatus
  | assigned
  | in_transit
  | delivered
  | failed
  deriving DecidableEq

structure Product where
  product_id : String
  name : String
  deriving DecidableEq

structure Stock where
  stock_id : Nat
  product_id : String
  warehouse_id : String
  quantity : Int
  unit_price : Int
  last_updated : Option Nat
  approvisionnement_id : Option String
  deriving DecidableEq

structure OrderItemReq where
  product_id : String
  quantity : Int
  unit_price : Int
  deriving DecidableEq

structure Order where
  order_id : Nat
  client_id : String
  warehouse_id : String
  total_amount : Int
  status : OrderStatus
  delivery_option : Bool
  delivery_address : Option String
  payment_method : PayMethod
  deriving DecidableEq

structure OrderItem where
  order_item_id : Nat
  order_id : Nat
  product_id : String
  quantity : Int
  unit_price : Int
  deriving DecidableEq

structure Delivery where
  delivery_id : Nat
  order_id : Nat
  driver_id : Option String
  status : DeliveryStatus
  deriving DecidableEq

structure Payment where
  payment_id : Nat
  order_id : Option Nat
  approvisionnement_id : Option String
  amount : Int
  payment_method : PayMethod
  status : PaymentStatus
  deriving DecidableEq

/-- Structured rendering of the free-form JSON `details` objects that the
source passes to `transaction_logs.create`; one constructor per call site. -/
inductive LogDetails
  | processOrderLog (total_amount : Int) (items_count : Nat)
      (delivery_option : Bool) (payment_method : PayMethod)
  | stockAdjustment (product_id warehouse_id : String)
      (previous_quantity adjustment new_quantity : Int) (reason : String)
  | stockTransfer (product_id from_warehouse_id to_warehouse_id : String)
      (quantity_transferred : Int) (reason : String)
  | lowStockAlert (product_id : String) (current_quantity threshold : Int)
      (alert_triggered : Bool)
  | workflowAction (action : String) (previous_status new_status : ApproStatus)
      (notes : Option String)
  | receiveStockLog (previous_status new_status : ApproStatus)
      (quantity_received : Int) (notes : Option String)
  deriving DecidableEq

structure TransactionLog where
  entity_type : String
  entity_id : String
  action : String
  user_id : String
  details : LogDetails
  deriving DecidableEq

structure Notification where
  user_id : String
  type : String
  message : String
  status : String
  deriving DecidableEq

structure Appro where
  approvisionnement_id : String
  supplier_id : String
  product_id : String
  warehouse_id : String
  quantity : Int
  proposed_price : Int
  status : ApproStatus
  business_developer_id : Option String
  stock_manager_id : Option String
  updated_at : Nat
  deriving DecidableEq

structure DB where
  products : List Product
  stocks : List Stock
  orders : List Order
  order_items : List OrderItem
  deliveries : List Delivery
  payments : List Payment
  transaction_logs : List TransactionLog
  notifications : List Notification
  approvisionnements : List Appro
  next_id : Nat
  deriving DecidableEq

/-- Which store calls fail during a run; the claims only need
`transaction_logs.create` and `notifications.create` to be fallible. -/
structure Env where
  log_create_fails : Bool
  notification_create_fails : Bool
  deriving DecidableEq

def Env.ok : Env := ⟨false, false⟩

/-- An error response `res.status(n).json(..error..code..)` from a handler. -/
structure ErrResp where
  status : Nat
  code : String
  error : String
  deriving DecidableEq

def isOkE {ε α : Type} (e : Except ε α) : Bool :=
  match e with
  | .ok _ => true
  | .error _ => false

/-- Committed database of a transaction result; on rollback the caller keeps
the pre-transaction database. -/
def txDB {α : Type} (x : Except String (DB × α)) (fallback : DB) : DB :=
  match x with
  | .ok p => p.1
  | .error _ => fallback

/-- Error payload of a handler result, when it is an error. -/
def errOf {α : Type} (e : Except ErrResp α) : Option ErrResp :=
  match e with
  | .error x => some x
  | .ok _ => none

def findFirstStock (stocks : List Stock) (pid wid : String) : Option Stock :=
  stocks.find? (fun s => s.product_id == pid && s.warehouse_id == wid)

def findFirstStockByProduct (stocks : List Stock) (pid : String) : Option Stock :=
  stocks.find? (fun s => s.product_id == pid)

def updateStockById (stocks : List Stock) (sid : Nat) (f : Stock → Stock) :
    List Stock :=
  stocks.map (fun s => if s.stock_id == sid then f s else s)

def updateApproById (l : List Appro) (aid : String) (f : Appro → Appro) :
    List Appro :=
  l.map (fun a => if a.approvisionnement_id == aid then f a else a)

def findAppro (db : DB) (aid : String) : Option Appro :=
  db.approvisionnements.find? (fun a => a.approvisionnement_id == aid)

/-- The `include: products` relation: name of the product a stock row points
at (the source would crash on a dangling relation; modelled as `""`). -/
def productName (db : DB) (pid : String) : String :=
  ((db.products.find? (fun p => p.product_id == pid)).map (fun p => p.name)).getD ""

def quantityOf (db : DB) (pid wid : String) : Option Int :=
  (findFirstStock db.stocks pid wid).map (fun s => s.quantity)

def unitPriceOf (db : DB) (pid wid : String) : Option Int :=
  (findFirstStock db.stocks pid wid).map (fun s => s.unit_price)

def lastUpdatedOf (db : DB) (pid wid : String) : Option (Option Nat) :=
  (findFirstStock db.stocks pid wid).map (fun s => s.last_updated)

def createLog (env : Env) (db : DB) (e : TransactionLog) : Except String DB :=
  if env.log_create_fails then .error "transaction_logs.create failed"
  else .ok { db with transaction_logs := db.transaction_logs ++ [e] }

def createNotif (env : Env) (db : DB) (n : Notification) : Except String DB :=
  if env.notification_create_fails then .error "notifications.create failed"
  else .ok { db with notifications := db.notifications ++ [n] }

/-! ## Order processing (`src/src/pages/api/orders/process/index.ts`) -/

structure OrderRequest where
  client_id : String
  warehouse_id : String
  items : List OrderItemReq
  delivery_option : Bool
  delivery_address : Option String
  payment_method : PayMethod
  deriving DecidableEq

/-- Result record of `validateStockAvailability`; the `valid` case in the
source carries no other field, rendered here as `⟨true, "", 0, 0⟩`. -/
structure StockValidation where
  valid : Bool
  productName : String
  availableQuantity : Int
  requestedQuantity : Int
  deriving DecidableEq

def validateStockAvailability (db : DB) (wid : String) :
    List OrderItemReq → StockValidation
  | [] => ⟨true, "", 0, 0⟩
  | item :: rest =>
    match findFirstStock db.stocks item.product_id wid with
    | none => ⟨false, "Product ID: " ++ item.product_id, 0, item.quantity⟩
    | some stock =>
      if stock.quantity < item.quantity then
        ⟨false, productName db stock.product_id, stock.quantity, item.quantity⟩
      else
        validateStockAvailability db wid rest

/-- An order item is short on stock in a warehouse: either no ledger row
exists for its product there, or the row holds less than the item requests.
This is the per-item condition `validateStockAvailability` rejects on. -/
def stockShort (db : DB) (wid : String) (item : OrderItemReq) : Bool :=
  match findFirstStock db.stocks item.product_id wid with
  | none => true
  | some s => decide (s.quantity < item.quantity)

/-- Step 4 of the order transaction: per item, create the order item row,
re-find the stock row by (product, warehouse) and decrement it when present
(`quantity: { decrement: item.quantity }` — no availability re-check). -/
def createItemsAndDecrement (now : Nat) (oid : Nat) (wid : String) :
    List OrderItemReq → DB → DB
  | [], db => db
  | item :: rest, db =>
    let db1 : DB := { db with
      order_items := db.order_items ++
        [⟨db.next_id, oid, item.product_id, item.quantity, item.unit_price⟩],
      next_id := db.next_id + 1 }
    let db2 : DB :=
      match findFirstStock db1.stocks item.product_id wid with
      | some s =>
        let dec : Stock → Stock := fun st =>
          { st with quantity := st.quantity - item.quantity,
                    last_updated := some now }
        { db1 with stocks := updateStockById db1.stocks s.stock_id dec }
      | none => db1
    createItemsAndDecrement now oid wid rest db2

def totalAmount (items : List OrderItemReq) : Int :=
  items.foldl (fun sum item => sum + item.quantity * item.unit_price) 0

structure OrderTxResult where
  order : Order
  items_count : Nat
  delivery : Option Delivery
  payment : Payment
  deriving DecidableEq

/-- Body of `prisma.$transaction` in the order-processing handler. -/
def processOrderTx (now : Nat) (r : OrderRequest) (db : DB) :
    Except String (DB × OrderTxResult) :=
  let v := validateStockAvailability db r.warehouse_id r.items
  if !v.valid then
    .error ("Insufficient stock for product: " ++ v.productName)
  else
    let total := totalAmount r.items
    let oid := db.next_id
    let order : Order := ⟨oid, r.client_id, r.warehouse_id, total, .pending,
      r.delivery_option, r.delivery_address, r.payment_method⟩
    let db1 : DB := { db with orders := db.orders ++ [order],
                              next_id := db.next_id + 1 }
    let db2 := createItemsAndDecrement now oid r.warehouse_id r.items db1
    let step5 : DB × Option Delivery :=
      if r.delivery_option then
        let d : Delivery := ⟨db2.next_id, oid, none, .assigned⟩
        ({ db2 with deliveries := db2.deliveries ++ [d],
                    next_id := db2.next_id + 1 }, some d)
      else (db2, none)
    let db3 := step5.1
    let pay : Payment := ⟨db3.next_id, some oid, none, total, r.payment_method,
      if r.payment_method = .direct then .completed else .pending⟩
    let db4 : DB := { db3 with payments := db3.payments ++ [pay],
                               next_id := db3.next_id + 1 }
    let newStatus : OrderStatus :=
      if r.payment_method = .direct then .paid else .pending
    let newOrders : List Order := db4.orders.map
      (fun o => if o.order_id == oid then { o with status := newStatus } else o)
    let db5 : DB := { db4 with orders := newOrders }
    .ok (db5, ⟨{ order with status := newStatus }, r.items.length, step5.2, pay⟩)

/-- The order-processing endpoint after method/auth/zod guards: role gate,
transaction, then post-commit audit log and the two notifications (each of
which, when it throws, is caught by the outer catch as a 500 response). -/
def processOrderHandler (env : Env) (now : Nat) (user : User) (r : OrderRequest)
    (db : DB) : Except ErrResp OrderTxResult × DB :=
  if user.role ≠ Role.client ∧ user.role ≠ Role.admin then
    (.error ⟨403, "INSUFFICIENT_PERMISSIONS", "Only clients can place orders"⟩, db)
  else
    match processOrderTx now r db with
    | .error msg => (.error ⟨500, "INTERNAL_SERVER_ERROR", msg⟩, db)
    | .ok (db1, res) =>
      let logEntry : TransactionLog := ⟨"orders", toString res.order.order_id,
        "CREATE", user.id,
        .processOrderLog res.order.total_amount res.items_count
          r.delivery_option r.payment_method⟩
      match createLog env db1 logEntry with
      | .error msg => (.error ⟨500, "INTERNAL_SERVER_ERROR", msg⟩, db1)
      | .ok db2 =>
        let n1 : Notification := ⟨r.client_id, "email",
          "Your order #" ++ toString res.order.order_id ++
            " has been processed successfully. Total: $" ++
            toString res.order.total_amount, "sent"⟩
        match createNotif env db2 n1 with
        | .error msg => (.error ⟨500, "INTERNAL_SERVER_ERROR", msg⟩, db2)
        | .ok db3 =>
          let n2 : Notification := ⟨"warehouse-staff-id", "email",
            "New order #" ++ toString res.order.order_id ++ " received. " ++
              toString res.items_count ++ " items to prepare.", "sent"⟩
          match createNotif env db3 n2 with
          | .error msg => (.error ⟨500, "INTERNAL_SERVER_ERROR", msg⟩, db3)
          | .ok db4 => (.ok res, db4)

/-! ## Approvisionnement workflow (`src/unnamed/part_005`) -/

inductive WfAction
  | validate_bd
  | reject_bd
  | receive_stock
  | reject_stock
  deriving DecidableEq

structure WfData where
  notes : Option String
  deriving DecidableEq

/-- Row update applied by `validate_bd` / `reject_bd` (new status plus the
acting business developer). -/
def bdUpdate (newStatus : ApproStatus) (uid : String) (now : Nat) :
    Appro → Appro :=
  fun t => { t with status := newStatus, business_developer_id := some uid,
                    updated_at := now }

/-- Row update applied by `receive_stock` / `reject_stock` (new status plus
the acting stock manager). -/
def smUpdate (newStatus : ApproStatus) (uid : String) (now : Nat) :
    Appro → Appro :=
  fun t => { t with status := newStatus, stock_manager_id := some uid,
                    updated_at := now }

def handleBusinessDeveloperValidation (env : Env) (now : Nat) (user : User)
    (a : Appro) (data : WfData) (db : DB) : Except ErrResp Appro × DB :=
  if user.role ≠ Role.business_developer ∧ user.role ≠ Role.admin then
    (.error ⟨403, "INSUFFICIENT_PERMISSIONS",
      "Only Business Developers can validate approvisionnements"⟩, db)
  else if a.status ≠ ApproStatus.pending then
    (.error ⟨400, "INVALID_STATUS",
      "Approvisionnement must be in pending status to be validated"⟩, db)
  else
    let upd := bdUpdate .validated_bd user.id now
    let newAppros := updateApproById db.approvisionnements a.approvisionnement_id upd
    let db1 : DB := { db with approvisionnements := newAppros }
    let logEntry : TransactionLog := ⟨"approvisionnements",
      a.approvisionnement_id, "UPDATE", user.id,
      .workflowAction "validate_bd" a.status .validated_bd data.notes⟩
    match createLog env db1 logEntry with
    | .error _ => (.error ⟨500, "INTERNAL_SERVER_ERROR", "Internal server error"⟩, db1)
    | .ok db2 =>
      let n : Notification := ⟨a.stock_manager_id.getD "stock-manager-id", "email",
        "New approvisionnement validated by Business Developer: " ++
          productName db a.product_id ++ " - " ++ toString a.quantity ++ " units",
        "sent"⟩
      match createNotif env db2 n with
      | .error _ => (.error ⟨500, "INTERNAL_SERVER_ERROR", "Internal server error"⟩, db2)
      | .ok db3 => (.ok (upd a), db3)

def handleBusinessDeveloperRejection (env : Env) (now : Nat) (user : User)
    (a : Appro) (data : WfData) (db : DB) : Except ErrResp Appro × DB :=
  if user.role ≠ Role.business_developer ∧ user.role ≠ Role.admin then
    (.error ⟨403, "INSUFFICIENT_PERMISSIONS",
      "Only Business Developers can reject approvisionnements"⟩, db)
  else if a.status ≠ ApproStatus.pending then
    (.error ⟨400, "INVALID_STATUS",
      "Approvisionnement must be in pending status to be rejected"⟩, db)
  else
    let upd := bdUpdate .rejected user.id now
    let newAppros := updateApproById db.approvisionnements a.approvisionnement_id upd
    let db1 : DB := { db with approvisionnements := newAppros }
    let logEntry : TransactionLog := ⟨"approvisionnements",
      a.approvisionnement_id, "UPDATE", user.id,
      .workflowAction "reject_bd" a.status .rejected data.notes⟩
    match createLog env db1 logEntry with
    | .error _ => (.error ⟨500, "INTERNAL_SERVER_ERROR", "Internal server error"⟩, db1)
    | .ok db2 =>
      let n : Notification := ⟨a.supplier_id, "email",
        "Your approvisionnement has been rejected by Business Developer. Reason: " ++
          data.notes.getD "No reason provided", "sent"⟩
      match createNotif env db2 n with
      | .error _ => (.error ⟨500, "INTERNAL_SERVER_ERROR", "Internal server error"⟩, db2)
      | .ok db3 => (.ok (upd a), db3)

/-- Body of `prisma.$transaction` in `handleStockReceival`: flip the status to
`received`, upsert the (product, warehouse) stock row, create the pending
supplier payment. None of its statements can throw, so it is total. -/
def receiveStockTx (now : Nat) (user : User) (a : Appro) (db : DB) : DB × Appro :=
  let upd := smUpdate .received user.id now
  let newAppros := updateApproById db.approvisionnements a.approvisionnement_id upd
  let db1 : DB := { db with approvisionnements := newAppros }
  let db2 : DB :=
    match findFirstStock db1.stocks a.product_id a.warehouse_id with
    | some s =>
      let f : Stock → Stock := fun st =>
        { st with quantity := s.quantity + a.quantity,
                  unit_price := a.proposed_price,
                  last_updated := some now,
                  approvisionnement_id := some a.approvisionnement_id }
      { db1 with stocks := updateStockById db1.stocks s.stock_id f }
    | none =>
      let newStock : Stock := ⟨db1.next_id, a.product_id, a.warehouse_id,
        a.quantity, a.proposed_price, none, some a.approvisionnement_id⟩
      { db1 with stocks := db1.stocks ++ [newStock], next_id := db1.next_id + 1 }
  let pay : Payment := ⟨db2.next_id, none, some a.approvisionnement_id,
    a.quantity * a.proposed_price, .direct, .pending⟩
  let db3 : DB := { db2 with payments := db2.payments ++ [pay],
                             next_id := db2.next_id + 1 }
  (db3, upd a)

def handleStockReceival (env : Env) (now : Nat) (user : User) (a : Appro)
    (data : WfData) (db : DB) : Except ErrResp Appro × DB :=
  if user.role ≠ Role.stock_manager ∧ user.role ≠ Role.admin then
    (.error ⟨403, "INSUFFICIENT_PERMISSIONS",
      "Only Stock Managers can receive stock"⟩, db)
  else if a.status ≠ ApproStatus.validated_bd then
    (.error ⟨400, "INVALID_STATUS",
      "Approvisionnement must be validated by Business Developer before stock can be received"⟩, db)
  else
    let txOut := receiveStockTx now user a db
    let db1 := txOut.1
    let logEntry : TransactionLog := ⟨"approvisionnements",
      a.approvisionnement_id, "UPDATE", user.id,
      .receiveStockLog a.status .received a.quantity data.notes⟩
    match createLog env db1 logEntry with
    | .error _ => (.error ⟨500, "INTERNAL_SERVER_ERROR", "Internal server error"⟩, db1)
    | .ok db2 =>
      let n : Notification := ⟨a.supplier_id, "email",
        "Your stock has been received and payment of " ++
          toString (a.quantity * a.proposed_price) ++ " has been processed.",
        "sent"⟩
      match createNotif env db2 n with
      | .error _ => (.error ⟨500, "INTERNAL_SERVER_ERROR", "Internal server error"⟩, db2)
      | .ok db3 => (.ok txOut.2, db3)

def handleStockRejection (env : Env) (now : Nat) (user : User) (a : Appro)
    (data : WfData) (db : DB) : Except ErrResp Appro × DB :=
  if user.role ≠ Role.stock_manager ∧ user.role ≠ Role.admin then
    (.error ⟨403, "INSUFFICIENT_PERMISSIONS",
      "Only Stock Managers can reject stock"⟩, db)
  else if a.status ≠ ApproStatus.validated_bd then
    (.error ⟨400, "INVALID_STATUS",
      "Approvisionnement must be validated by Business Developer before stock can be rejected"⟩, db)
  else
    let upd := smUpdate .rejected user.id now
    let newAppros := updateApproById db.approvisionnements a.approvisionnement_id upd
    let db1 : DB := { db with approvisionnements := newAppros }
    let logEntry : TransactionLog := ⟨"approvisionnements",
      a.approvisionnement_id, "UPDATE", user.id,
      .workflowAction "reject_stock" a.status .rejected data.notes⟩
    match createLog env db1 logEntry with
    | .error _ => (.error ⟨500, "INTERNAL_SERVER_ERROR", "Internal server error"⟩, db1)
    | .ok db2 =>
      let n : Notification := ⟨a.supplier_id, "email",
        "Your stock has been rejected by Stock Manager. Reason: " ++
          data.notes.getD "No reason provided", "sent"⟩
      match createNotif env db2 n with
      | .error _ => (.error ⟨500, "INTERNAL_SERVER_ERROR", "Internal server error"⟩, db2)
      | .ok db3 => (.ok (upd a), db3)

/-- The workflow endpoint after method/auth/zod guards: the approvisionnement
lookup comes first (404 when absent), the per-action role checks live inside
the dispatched handlers. -/
def workflowHandler (env : Env) (now : Nat) (user : User) (action : WfAction)
    (aid : String) (data : WfData) (db : DB) : Except ErrResp Appro × DB :=
  match findAppro db aid with
  | none => (.error ⟨404, "NOT_FOUND", "Approvisionnement not found"⟩, db)
  | some a =>
    match action with
    | .validate_bd => handleBusinessDeveloperValidation env now user a data db
    | .reject_bd => handleBusinessDeveloperRejection env now user a data db
    | .receive_stock => handleStockReceival env now user a data db
    | .reject_stock => handleStockRejection env now user a data db

/-! ## Stock management (`src/src/pages/api/stocks/management/index.ts`) -/

structure AdjustRequest where
  product_id : String
  warehouse_id : String
  quantity : Int
  reason : Option String
  deriving DecidableEq

structure AdjustResult where
  stock : Stock
  previous_quantity : Int
  new_quantity : Int
  deriving DecidableEq

/-- Body of `prisma.$transaction` in `handleStockAdjustment`. -/
def adjustTx (env : Env) (now : Nat) (user : User) (data : AdjustRequest)
    (db : DB) : Except String (DB × AdjustResult) :=
  match findFirstStock db.stocks data.product_id data.warehouse_id with
  | none => .error "Stock record not found for this product and warehouse"
  | some currentStock =>
    let newQuantity := currentStock.quantity + data.quantity
    if newQuantity < 0 then
      .error "Stock adjustment would result in negative quantity"
    else
      let f : Stock → Stock := fun st =>
        { st with quantity := newQuantity, last_updated := some now }
      let db1 : DB :=
        { db with stocks := updateStockById db.stocks currentStock.stock_id f }
      let logEntry : TransactionLog := ⟨"stocks", toString currentStock.stock_id,
        "UPDATE", user.id,
        .stockAdjustment data.product_id data.warehouse_id
          currentStock.quantity data.quantity newQuantity
          (data.reason.getD "Manual adjustment")⟩
      match createLog env db1 logEntry with
      | .error msg => .error msg
      | .ok db2 => .ok (db2, ⟨f currentStock, currentStock.quantity, newQuantity⟩)

def handleStockAdjustment (env : Env) (now : Nat) (user : User)
    (data : AdjustRequest) (db : DB) : Except ErrResp AdjustResult × DB :=
  match adjustTx env now user data db with
  | .error msg => (.error ⟨500, "STOCK_ADJUSTMENT_FAILED", msg⟩, db)
  | .ok (db1, r) => (.ok r, db1)

structure TransferRequest where
  product_id : String
  from_warehouse_id : String
  to_warehouse_id : String
  quantity : Int
  reason : Option String
  deriving DecidableEq

structure TransferResult where
  source_stock : Stock
  destination_stock : Stock
  quantity_transferred : Int
  deriving DecidableEq

/-- Body of `prisma.$transaction` in `handleStockTransfer`: both reads use the
pre-write database, the destination is created-or-updated before the source
is decremented, and both writes store absolute values computed from the
snapshots read at the top. -/
def transferTx (env : Env) (now : Nat) (user : User) (data : TransferRequest)
    (db : DB) : Except String (DB × TransferResult) :=
  match findFirstStock db.stocks data.product_id data.from_warehouse_id with
  | none => .error "Source stock not found"
  | some sourceStock =>
    if sourceStock.quantity < data.quantity then
      .error "Insufficient stock in source warehouse"
    else
      let destPair : DB × Stock :=
        match findFirstStock db.stocks data.product_id data.to_warehouse_id with
        | none =>
          let d : Stock := ⟨db.next_id, data.product_id, data.to_warehouse_id,
            data.quantity, sourceStock.unit_price, some now, none⟩
          ({ db with stocks := db.stocks ++ [d], next_id := db.next_id + 1 }, d)
        | some d0 =>
          let g : Stock → Stock := fun st =>
            { st with quantity := d0.quantity + data.quantity,
                      last_updated := some now }
          ({ db with stocks := updateStockById db.stocks d0.stock_id g }, g d0)
      let db1 := destPair.1
      let f : Stock → Stock := fun st =>
        { st with quantity := sourceStock.quantity - data.quantity,
                  last_updated := some now }
      let db2 : DB :=
        { db1 with stocks := updateStockById db1.stocks sourceStock.stock_id f }
      let logEntry : TransactionLog := ⟨"stocks", toString sourceStock.stock_id,
        "UPDATE", user.id,
        .stockTransfer data.product_id data.from_warehouse_id
          data.to_warehouse_id data.quantity (data.reason.getD "Manual transfer")⟩
      match createLog env db2 logEntry with
      | .error msg => .error msg
      | .ok db3 => .ok (db3, ⟨f sourceStock, destPair.2, data.quantity⟩)

/-- The transfer endpoint guards its required fields with a JS falsiness
check (`!data.product_id || ... || !data.quantity`): an absent or empty-string
id, or a quantity of 0 — which the zod schema admits, `quantity` being a
plain optional number — is rejected as MISSING_REQUIRED_FIELDS before any
read or write. -/
def handleStockTransfer (env : Env) (now : Nat) (user : User)
    (data : TransferRequest) (db : DB) : Except ErrResp TransferResult × DB :=
  if data.product_id == "" || data.from_warehouse_id == ""
      || data.to_warehouse_id == "" || data.quantity == 0 then
    (.error ⟨400, "MISSING_REQUIRED_FIELDS",
      "product_id, from_warehouse_id, to_warehouse_id, and quantity are required for stock transfer"⟩, db)
  else if data.from_warehouse_id == data.to_warehouse_id then
    (.error ⟨400, "INVALID_TRANSFER",
      "Source and destination warehouses must be different"⟩, db)
  else
    match transferTx env now user data db with
    | .error msg => (.error ⟨500, "STOCK_TRANSFER_FAILED", msg⟩, db)
    | .ok (db1, r) => (.ok r, db1)

structure AlertRequest where
  product_id : String
  threshold : Int
  deriving DecidableEq

structure AlertResult where
  current_quantity : Int
  threshold : Int
  is_low_stock : Bool
  alert_sent : Bool
  deriving DecidableEq

/-- `handleStockAlert`: first matching stock row for the product across any
warehouse; at or below the threshold it creates one notification to the
caller and one audit entry, otherwise it only reports the comparison. -/
def handleStockAlert (env : Env) (user : User) (data : AlertRequest) (db : DB) :
    Except ErrResp AlertResult × DB :=
  match findFirstStockByProduct db.stocks data.product_id with
  | none => (.error ⟨404, "STOCK_NOT_FOUND", "Stock not found for this product"⟩, db)
  | some currentStock =>
    if currentStock.quantity ≤ data.threshold then
      let n : Notification := ⟨user.id, "email",
        "LOW STOCK ALERT: " ++ productName db currentStock.product_id ++
          " is below threshold. Current: " ++ toString currentStock.quantity ++
          ", Threshold: " ++ toString data.threshold, "sent"⟩
      match createNotif env db n with
      | .error _ =>
        (.error ⟨500, "ALERT_PROCESSING_FAILED", "Failed to process stock alert"⟩, db)
      | .ok db1 =>
        let logEntry : TransactionLog := ⟨"stocks", toString currentStock.stock_id,
          "CREATE", user.id,
          .lowStockAlert data.product_id currentStock.quantity data.threshold true⟩
        match createLog env db1 logEntry with
        | .error _ =>
          (.error ⟨500, "ALERT_PROCESSING_FAILED", "Failed to process stock alert"⟩, db1)
        | .ok db2 => (.ok ⟨currentStock.quantity, data.threshold, true, true⟩, db2)
    else
      (.ok ⟨currentStock.quantity, data.threshold, false, false⟩, db)

/-! ## Concrete fixtures used by witnesses and counterexamples -/

def prodA : Product := ⟨"A", "Apple"⟩

def prodB : Product := ⟨"B", "Beans"⟩

def uClient : User := ⟨"client-1", Role.client⟩

def uBD : User := ⟨"bd-1", Role.business_developer⟩

def uSM : User := ⟨"sm-1", Role.stock_manager⟩

def uSupplier : User := ⟨"sup-1", Role.supplier⟩

def stockA5 : Stock := ⟨1, "A", "W1", 5, 10, none, none⟩

def stockB2 : Stock := ⟨2, "B", "W1", 2, 20, none, none⟩

def baseDB : DB := ⟨[prodA, prodB], [stockA5, stockB2], [], [], [], [], [], [], [], 100⟩

def appro7 : Appro := ⟨"ap-1", "sup-1", "A", "W1", 7, 4, ApproStatus.pending, none, none, 0⟩

def approV : Appro := { appro7 with status := ApproStatus.validated_bd }

def wfDB : DB := { baseDB with approvisionnements := [appro7] }

def wfDBv : DB := { baseDB with approvisionnements := [approV] }

def dupReq : OrderRequest :=
  ⟨"client-1", "W1", [⟨"A", 3, 10⟩, ⟨"A", 3, 10⟩], false, none, PayMethod.direct⟩

def shortReq : OrderRequest :=
  ⟨"client-1", "W1", [⟨"A", 5, 10⟩, ⟨"B", 3, 20⟩], false, none, PayMethod.direct⟩

def okReq : OrderRequest :=
  ⟨"client-1", "W1", [⟨"A", 2, 10⟩], false, none, PayMethod.direct⟩

def envLogFail : Env := ⟨true, false⟩

def envNotifFail : Env := ⟨false, true⟩

/-! ## Helper lemmas -/

theorem find?_map_comm {α : Type} (p : α → Bool) (h : α → α)
    (hp : ∀ a, p (h a) = p a) (l : List α) :
    (l.map h).find? p = (l.find? p).map h := by
  have hph : p ∘ h = p := funext hp
  rw [List.find?_map, hph]

theorem findFirstStock_update (l : List Stock) (pid wid : String) (sid : Nat)
    (f : Stock → Stock)
    (hfp : ∀ s, (f s).product_id = s.product_id)
    (hfw : ∀ s, (f s).warehouse_id = s.warehouse_id) :
    findFirstStock (updateStockById l sid f) pid wid
      = (findFirstStock l pid wid).map
          (fun s => if s.stock_id == sid then f s else s) := by
  unfold findFirstStock updateStockById
  apply find?_map_comm
  intro s
  by_cases h : s.stock_id == sid <;> simp [h, hfp, hfw]

theorem findAppro_update (l : List Appro) (aid key : String) (f : Appro → Appro)
    (hf : ∀ a, (f a).approvisionnement_id = a.approvisionnement_id) :
    (updateApproById l key f).find? (fun a => a.approvisionnement_id == aid)
      = (l.find? (fun a => a.approvisionnement_id == aid)).map
          (fun a => if a.approvisionnement_id == key then f a else a) := by
  unfold updateApproById
  apply find?_map_comm
  intro a
  by_cases h : a.approvisionnement_id == key <;> simp [h, hf]

theorem findFirstStock_update_self (l : List Stock) (pid wid : String)
    (s : Stock) (f : Stock → Stock)
    (hfp : ∀ t, (f t).product_id = t.product_id)
    (hfw : ∀ t, (f t).warehouse_id = t.warehouse_id)
    (h : findFirstStock l pid wid = some s) :
    findFirstStock (updateStockById l s.stock_id f) pid wid = some (f s) := by
  rw [findFirstStock_update l pid wid s.stock_id f hfp hfw, h]
  simp

theorem findFirstStock_update_other (l : List Stock) (pid wid : String)
    (s : Stock) (sid : Nat) (f : Stock → Stock)
    (hfp : ∀ t, (f t).product_id = t.product_id)
    (hfw : ∀ t, (f t).warehouse_id = t.warehouse_id)
    (h : findFirstStock l pid wid = some s) (hne : s.stock_id ≠ sid) :
    findFirstStock (updateStockById l sid f) pid wid = some s := by
  rw [findFirstStock_update l pid wid sid f hfp hfw, h]
  simp [hne]

theorem findFirstStock_append_some (l l2 : List Stock) (pid wid : String)
    (s : Stock) (h : findFirstStock l pid wid = some s) :
    findFirstStock (l ++ l2) pid wid = some s := by
  unfold findFirstStock at h ⊢
  rw [List.find?_append, h]
  rfl

theorem findFirstStock_append_none (l l2 : List Stock) (pid wid : String)
    (h : findFirstStock l pid wid = none) :
    findFirstStock (l ++ l2) pid wid = findFirstStock l2 pid wid := by
  unfold findFirstStock at h ⊢
  rw [List.find?_append, h]
  rfl

theorem findFirstStock_singleton_self (s : Stock) :
    findFirstStock [s] s.product_id s.warehouse_id = some s := by
  simp [findFirstStock, List.find?]

/-! ## Claim theorems -/

/-- C10: in the approvisionnement workflow endpoint, the existence lookup
precedes every role check — a request naming an id with no approvisionnement
gets the 404 NOT_FOUND response whatever the action and whatever the caller
role, with the database untouched. -/
theorem C10_lookup_before_role_check (env : Env) (now : Nat) (user : User)
    (action : WfAction) (aid : String) (data : WfData) (db : DB)
    (h : findAppro db aid = none) :
    workflowHandler env now user action aid data db
      = (.error ⟨404, "NOT_FOUND", "Approvisionnement not found"⟩, db) := by
  simp only [workflowHandler, h]

/-- Witness for C10: a supplier — a role outside every action allow-list —
probing a nonexistent id still learns NOT_FOUND. -/
theorem C10_witness :
    findAppro baseDB "ap-1" = none ∧
    workflowHandler Env.ok 0 uSupplier WfAction.receive_stock "ap-1" ⟨none⟩ baseDB
      = (.error ⟨404, "NOT_FOUND", "Approvisionnement not found"⟩, baseDB) :=
  ⟨by decide,
   C10_lookup_before_role_check Env.ok 0 uSupplier WfAction.receive_stock
     "ap-1" ⟨none⟩ baseDB (by decide)⟩

/-- C9: `alert(product_id, threshold)` reads the first ledger entry matching
the product (any warehouse); at quantity ≤ threshold it reports
is_low_stock = true and creates exactly one notification to the caller and
one audit entry; at quantity > threshold it reports is_low_stock = false and
leaves the database untouched (zero notifications, zero audit entries). -/
theorem C9_alert_first_match (env : Env) (user : User) (data : AlertRequest)
    (db : DB) (cs : Stock)
    (hfind : findFirstStockByProduct db.stocks data.product_id = some cs)
    (henv : env = Env.ok) :
    (cs.quantity ≤ data.threshold →
      handleStockAlert env user data db
        = (.ok ⟨cs.quantity, data.threshold, true, true⟩,
           { db with
             notifications := db.notifications ++ [⟨user.id, "email",
               "LOW STOCK ALERT: " ++ productName db cs.product_id ++
                 " is below threshold. Current: " ++ toString cs.quantity ++
                 ", Threshold: " ++ toString data.threshold, "sent"⟩],
             transaction_logs := db.transaction_logs ++ [⟨"stocks",
               toString cs.stock_id, "CREATE", user.id,
               .lowStockAlert data.product_id cs.quantity data.threshold true⟩] }))
    ∧ (data.threshold < cs.quantity →
      handleStockAlert env user data db
        = (.ok ⟨cs.quantity, data.threshold, false, false⟩, db)) := by
  subst henv
  constructor
  · intro hle
    simp only [handleStockAlert, hfind, hle, if_pos, createNotif, createLog,
      Env.ok, if_neg, Bool.false_eq_true, not_false_eq_true, if_true]
  · intro hlt
    have hnot : ¬ cs.quantity ≤ data.threshold := not_le.mpr hlt
    simp only [handleStockAlert, hfind, hnot, if_neg, not_false_eq_true]

/-- Witness for C9: quantity 5 against threshold 10 triggers the alert with
one notification and one audit entry; against threshold 3 it reports
is_low_stock = false with no side effects. -/
theorem C9_witness :
    (handleStockAlert Env.ok uSM ⟨"A", 10⟩ baseDB
      = (.ok ⟨5, 10, true, true⟩,
         { baseDB with
           notifications := [⟨"sm-1", "email",
             "LOW STOCK ALERT: Apple is below threshold. Current: 5, Threshold: 10",
             "sent"⟩],
           transaction_logs := [⟨"stocks", "1", "CREATE", "sm-1",
             .lowStockAlert "A" 5 10 true⟩] }))
    ∧ (handleStockAlert Env.ok uSM ⟨"A", 3⟩ baseDB
      = (.ok ⟨5, 3, false, false⟩, baseDB)) := by
  constructor
  · have h := (C9_alert_first_match Env.ok uSM ⟨"A", 10⟩ baseDB stockA5
      (by decide) rfl).1 (by decide)
    simpa using h
  · exact (C9_alert_first_match Env.ok uSM ⟨"A", 3⟩ baseDB stockA5
      (by decide) rfl).2 (by decide)

/-- C8: `adjust(product_id, warehouse_id, delta)` fails with the not-found
error and an untouched database when no ledger row exists for the pair;
fails with the would-be-negative domain error and an untouched database when
current + delta < 0 (both surfaced as a 500 STOCK_ADJUSTMENT_FAILED response
carrying the distinguishing message); otherwise it succeeds, writing
new_quantity = current + delta and last_updated, and appending exactly one
audit entry carrying the previous quantity, the new quantity and the reason. -/
theorem C8_adjust (env : Env) (now : Nat) (user : User) (data : AdjustRequest)
    (db : DB) :
    (findFirstStock db.stocks data.product_id data.warehouse_id = none →
      handleStockAdjustment env now user data db
        = (.error ⟨500, "STOCK_ADJUSTMENT_FAILED",
            "Stock record not found for this product and warehouse"⟩, db))
    ∧ (∀ cs, findFirstStock db.stocks data.product_id data.warehouse_id = some cs →
        cs.quantity + data.quantity < 0 →
        handleStockAdjustment env now user data db
          = (.error ⟨500, "STOCK_ADJUSTMENT_FAILED",
              "Stock adjustment would result in negative quantity"⟩, db))
    ∧ (∀ cs, findFirstStock db.stocks data.product_id data.warehouse_id = some cs →
        0 ≤ cs.quantity + data.quantity → env = Env.ok →
        isOkE (handleStockAdjustment env now user data db).1 = true
        ∧ quantityOf (handleStockAdjustment env now user data db).2
            data.product_id data.warehouse_id = some (cs.quantity + data.quantity)
        ∧ lastUpdatedOf (handleStockAdjustment env now user data db).2
            data.product_id data.warehouse_id = some (some now)
        ∧ (handleStockAdjustment env now user data db).2.transaction_logs
            = db.transaction_logs ++ [⟨"stocks", toString cs.stock_id, "UPDATE",
                user.id, .stockAdjustment data.product_id data.warehouse_id
                  cs.quantity data.quantity (cs.quantity + data.quantity)
                  (data.reason.getD "Manual adjustment")⟩]) := by
  refine ⟨?_, ?_, ?_⟩
  · intro hnone
    simp only [handleStockAdjustment, adjustTx, hnone]
  · intro cs hfind hneg
    simp only [handleStockAdjustment, adjustTx, hfind, if_pos hneg]
  · intro cs hfind hpos henv
    subst henv
    have hnn : ¬ cs.quantity + data.quantity < 0 := not_lt.mpr hpos
    have hup := findFirstStock_update db.stocks data.product_id
      data.warehouse_id cs.stock_id
      (fun st => { st with quantity := cs.quantity + data.quantity,
                           last_updated := some now })
      (fun _ => rfl) (fun _ => rfl)
    simp only [handleStockAdjustment, adjustTx, hfind, if_neg hnn, createLog,
      Env.ok, Bool.false_eq_true, not_false_eq_true, if_neg]
    refine ⟨?_, ?_, ?_, ?_⟩ <;>
      simp [isOkE, quantityOf, lastUpdatedOf, hup, hfind]

/-- Witness for C8: adjusting A in W1 by −2 from quantity 5 succeeds with new
quantity 3, a fresh last_updated tick and one audit entry; adjusting by −15
fails with the would-be-negative error leaving the database untouched; an
unknown pair fails with the not-found error. -/
theorem C8_witness :
    (isOkE (handleStockAdjustment Env.ok 9 uSM ⟨"A", "W1", -2, none⟩ baseDB).1 = true
      ∧ quantityOf (handleStockAdjustment Env.ok 9 uSM ⟨"A", "W1", -2, none⟩ baseDB).2
          "A" "W1" = some 3
      ∧ lastUpdatedOf (handleStockAdjustment Env.ok 9 uSM ⟨"A", "W1", -2, none⟩ baseDB).2
          "A" "W1" = some (some 9)
      ∧ (handleStockAdjustment Env.ok 9 uSM ⟨"A", "W1", -2, none⟩ baseDB).2.transaction_logs
          = baseDB.transaction_logs ++ [⟨"stocks", "1", "UPDATE", "sm-1",
              .stockAdjustment "A" "W1" 5 (-2) 3 "Manual adjustment"⟩])
    ∧ (handleStockAdjustment Env.ok 9 uSM ⟨"A", "W1", -15, none⟩ baseDB
        = (.error ⟨500, "STOCK_ADJUSTMENT_FAILED",
            "Stock adjustment would result in negative quantity"⟩, baseDB))
    ∧ (handleStockAdjustment Env.ok 9 uSM ⟨"A", "W2", -2, none⟩ baseDB
        = (.error ⟨500, "STOCK_ADJUSTMENT_FAILED",
            "Stock record not found for this product and warehouse"⟩, baseDB)) := by
  refine ⟨?_, ?_, ?_⟩
  · have h := (C8_adjust Env.ok 9 uSM ⟨"A", "W1", -2, none⟩ baseDB).2.2 stockA5
      (by decide) (by decide) rfl
    simpa using h
  · exact (C8_adjust Env.ok 9 uSM ⟨"A", "W1", -15, none⟩ baseDB).2.1 stockA5
      (by decide) (by decide)
  · exact (C8_adjust Env.ok 9 uSM ⟨"A", "W2", -2, none⟩ baseDB).1 (by decide)

/-- C7: `transfer(product_id, from, to, quantity)` fails when the two
warehouse ids are equal; fails with the source-not-found error when the
source row is absent; fails with the insufficient-stock error when
source.quantity < quantity (all three leaving the database untouched);
otherwise the source quantity drops by `quantity`, the destination row is
incremented by `quantity` — or created with that quantity and the source
unit_price when absent — and exactly one audit entry referencing both
warehouse ids and the quantity moved is appended. The freshness hypotheses
on stock ids state that distinct rows carry distinct primary keys; the
nonempty-id and nonzero-quantity hypotheses restrict to requests that pass
the endpoint's required-fields falsiness guard (a quantity of 0 is rejected
as MISSING_REQUIRED_FIELDS before any read or write). -/
theorem C7_transfer (env : Env) (now : Nat) (user : User)
    (data : TransferRequest) (db : DB)
    (hpid : data.product_id ≠ "") (hfrom : data.from_warehouse_id ≠ "")
    (hto : data.to_warehouse_id ≠ "") (hq : data.quantity ≠ 0) :
    (data.from_warehouse_id = data.to_warehouse_id →
      handleStockTransfer env now user data db
        = (.error ⟨400, "INVALID_TRANSFER",
            "Source and destination warehouses must be different"⟩, db))
    ∧ (data.from_warehouse_id ≠ data.to_warehouse_id →
       findFirstStock db.stocks data.product_id data.from_warehouse_id = none →
       handleStockTransfer env now user data db
         = (.error ⟨500, "STOCK_TRANSFER_FAILED", "Source stock not found"⟩, db))
    ∧ (∀ s, data.from_warehouse_id ≠ data.to_warehouse_id →
       findFirstStock db.stocks data.product_id data.from_warehouse_id = some s →
       s.quantity < data.quantity →
       handleStockTransfer env now user data db
         = (.error ⟨500, "STOCK_TRANSFER_FAILED",
             "Insufficient stock in source warehouse"⟩, db))
    ∧ (∀ s d0, data.from_warehouse_id ≠ data.to_warehouse_id →
       findFirstStock db.stocks data.product_id data.from_warehouse_id = some s →
       data.quantity ≤ s.quantity →
       findFirstStock db.stocks data.product_id data.to_warehouse_id = some d0 →
       s.stock_id ≠ d0.stock_id → env = Env.ok →
       isOkE (handleStockTransfer env now user data db).1 = true
       ∧ quantityOf (handleStockTransfer env now user data db).2
           data.product_id data.from_warehouse_id = some (s.quantity - data.quantity)
       ∧ quantityOf (handleStockTransfer env now user data db).2
           data.product_id data.to_warehouse_id = some (d0.quantity + data.quantity)
       ∧ (handleStockTransfer env now user data db).2.transaction_logs
           = db.transaction_logs ++ [⟨"stocks", toString s.stock_id, "UPDATE",
               user.id, .stockTransfer data.product_id data.from_warehouse_id
                 data.to_warehouse_id data.quantity
                 (data.reason.getD "Manual transfer")⟩])
    ∧ (∀ s, data.from_warehouse_id ≠ data.to_warehouse_id →
       findFirstStock db.stocks data.product_id data.from_warehouse_id = some s →
       data.quantity ≤ s.quantity →
       findFirstStock db.stocks data.product_id data.to_warehouse_id = none →
       s.stock_id ≠ db.next_id → env = Env.ok →
       isOkE (handleStockTransfer env now user data db).1 = true
       ∧ quantityOf (handleStockTransfer env now user data db).2
           data.product_id data.from_warehouse_id = some (s.quantity - data.quantity)
       ∧ quantityOf (handleStockTransfer env now user data db).2
           data.product_id data.to_warehouse_id = some data.quantity
       ∧ unitPriceOf (handleStockTransfer env now user data db).2
           data.product_id data.to_warehouse_id = some s.unit_price
       ∧ (handleStockTransfer env now user data db).2.transaction_logs
           = db.transaction_logs ++ [⟨"stocks", toString s.stock_id, "UPDATE",
               user.id, .stockTransfer data.product_id data.from_warehouse_id
                 data.to_warehouse_id data.quantity
                 (data.reason.getD "Manual transfer")⟩]) := by
  have hguard : (data.product_id == "" || data.from_warehouse_id == ""
      || data.to_warehouse_id == "" || data.quantity == 0) = false := by
    simp [hpid, hfrom, hto, hq]
  refine ⟨?_, ?_, ?_, ?_, ?_⟩
  · intro heq
    have hb : (data.from_warehouse_id == data.to_warehouse_id) = true := by
      simp [heq]
    simp only [handleStockTransfer, hguard, Bool.false_eq_true,
      not_false_eq_true, if_neg, hb, if_true]
  · intro hne hnone
    have hb : (data.from_warehouse_id == data.to_warehouse_id) = false := by
      simp [hne]
    simp only [handleStockTransfer, hguard, hb, Bool.false_eq_true, not_false_eq_true,
      if_neg, transferTx, hnone]
  · intro s hne hfind hlt
    have hb : (data.from_warehouse_id == data.to_warehouse_id) = false := by
      simp [hne]
    simp only [handleStockTransfer, hguard, hb, Bool.false_eq_true, not_false_eq_true,
      if_neg, transferTx, hfind, if_pos hlt]
  · intro s d0 hne hfind hle hdest hsd henv
    subst henv
    have hb : (data.from_warehouse_id == data.to_warehouse_id) = false := by
      simp [hne]
    have hnlt : ¬ s.quantity < data.quantity := not_lt.mpr hle
    have hds0 : d0.stock_id ≠ s.stock_id := fun h => hsd h.symm
    have h1 := findFirstStock_update_other db.stocks data.product_id
      data.from_warehouse_id s d0.stock_id
      (fun st => { st with quantity := d0.quantity + data.quantity,
                           last_updated := some now })
      (fun _ => rfl) (fun _ => rfl) hfind hsd
    have h2 := findFirstStock_update_self db.stocks data.product_id
      data.to_warehouse_id d0
      (fun st => { st with quantity := d0.quantity + data.quantity,
                           last_updated := some now })
      (fun _ => rfl) (fun _ => rfl) hdest
    have h3 := findFirstStock_update_self _ data.product_id
      data.from_warehouse_id s
      (fun st => { st with quantity := s.quantity - data.quantity,
                           last_updated := some now })
      (fun _ => rfl) (fun _ => rfl) h1
    have h4 := findFirstStock_update_other _ data.product_id
      data.to_warehouse_id _ s.stock_id
      (fun st => { st with quantity := s.quantity - data.quantity,
                           last_updated := some now })
      (fun _ => rfl) (fun _ => rfl) h2 hds0
    simp only [handleStockTransfer, hguard, hb, Bool.false_eq_true, not_false_eq_true,
      if_neg, transferTx, hfind, hdest, if_neg hnlt, createLog, Env.ok, isOkE,
      quantityOf]
    exact ⟨trivial, by simp [h3], by simp [h4], trivial⟩
  · intro s hne hfind hle hdest hfresh henv
    subst henv
    have hb : (data.from_warehouse_id == data.to_warehouse_id) = false := by
      simp [hne]
    have hnlt : ¬ s.quantity < data.quantity := not_lt.mpr hle
    have hdown : (⟨db.next_id, data.product_id, data.to_warehouse_id,
        data.quantity, s.unit_price, some now, none⟩ : Stock).stock_id
          ≠ s.stock_id := fun h => hfresh h.symm
    have h1 := findFirstStock_append_some db.stocks
      [⟨db.next_id, data.product_id, data.to_warehouse_id, data.quantity,
        s.unit_price, some now, none⟩]
      data.product_id data.from_warehouse_id s hfind
    have h2 : findFirstStock
        (db.stocks ++ [⟨db.next_id, data.product_id, data.to_warehouse_id,
          data.quantity, s.unit_price, some now, none⟩])
        data.product_id data.to_warehouse_id
        = some ⟨db.next_id, data.product_id, data.to_warehouse_id,
            data.quantity, s.unit_price, some now, none⟩ := by
      rw [findFirstStock_append_none db.stocks _ data.product_id
        data.to_warehouse_id hdest]
      exact findFirstStock_singleton_self
        ⟨db.next_id, data.product_id, data.to_warehouse_id, data.quantity,
          s.unit_price, some now, none⟩
    have h3 := findFirstStock_update_self _ data.product_id
      data.from_warehouse_id s
      (fun st => { st with quantity := s.quantity - data.quantity,
                           last_updated := some now })
      (fun _ => rfl) (fun _ => rfl) h1
    have h4 := findFirstStock_update_other _ data.product_id
      data.to_warehouse_id _ s.stock_id
      (fun st => { st with quantity := s.quantity - data.quantity,
                           last_updated := some now })
      (fun _ => rfl) (fun _ => rfl) h2 hdown
    simp only [handleStockTransfer, hguard, hb, Bool.false_eq_true, not_false_eq_true,
      if_neg, transferTx, hfind, hdest, if_neg hnlt, createLog, Env.ok, isOkE,
      quantityOf, unitPriceOf]
    exact ⟨trivial, by simp [h3], by simp [h4], by simp [h4], trivial⟩

/-- Witness for C7: moving 10 units of B out of W1 (which holds 2) fails;
moving 2 units of A from W1 (5 units) to the empty W2 succeeds, leaving
W1 at 3 and creating W2 at 2 with the source price 10 and one audit entry;
a same-warehouse transfer and an unknown source both fail untouched. -/
theorem C7_witness :
    (handleStockTransfer Env.ok 9 uSM ⟨"A", "W1", "W1", 2, none⟩ baseDB
      = (.error ⟨400, "INVALID_TRANSFER",
          "Source and destination warehouses must be different"⟩, baseDB))
    ∧ (handleStockTransfer Env.ok 9 uSM ⟨"A", "W3", "W2", 2, none⟩ baseDB
      = (.error ⟨500, "STOCK_TRANSFER_FAILED", "Source stock not found"⟩, baseDB))
    ∧ (handleStockTransfer Env.ok 9 uSM ⟨"B", "W1", "W2", 10, none⟩ baseDB
      = (.error ⟨500, "STOCK_TRANSFER_FAILED",
          "Insufficient stock in source warehouse"⟩, baseDB))
    ∧ (isOkE (handleStockTransfer Env.ok 9 uSM ⟨"A", "W1", "W2", 2, none⟩ baseDB).1 = true
      ∧ quantityOf (handleStockTransfer Env.ok 9 uSM ⟨"A", "W1", "W2", 2, none⟩ baseDB).2
          "A" "W1" = some 3
      ∧ quantityOf (handleStockTransfer Env.ok 9 uSM ⟨"A", "W1", "W2", 2, none⟩ baseDB).2
          "A" "W2" = some 2
      ∧ unitPriceOf (handleStockTransfer Env.ok 9 uSM ⟨"A", "W1", "W2", 2, none⟩ baseDB).2
          "A" "W2" = some 10
      ∧ (handleStockTransfer Env.ok 9 uSM ⟨"A", "W1", "W2", 2, none⟩ baseDB).2.transaction_logs
          = baseDB.transaction_logs ++ [⟨"stocks", "1", "UPDATE", "sm-1",
              .stockTransfer "A" "W1" "W2" 2 "Manual transfer"⟩]) := by
  refine ⟨?_, ?_, ?_, ?_⟩
  · exact (C7_transfer Env.ok 9 uSM ⟨"A", "W1", "W1", 2, none⟩ baseDB
      (by decide) (by decide) (by decide) (by decide)).1 rfl
  · exact (C7_transfer Env.ok 9 uSM ⟨"A", "W3", "W2", 2, none⟩ baseDB
      (by decide) (by decide) (by decide) (by decide)).2.1
      (by decide) (by decide)
  · exact (C7_transfer Env.ok 9 uSM ⟨"B", "W1", "W2", 10, none⟩ baseDB
      (by decide) (by decide) (by decide) (by decide)).2.2.1
      stockB2 (by decide) (by decide) (by decide)
  · have h := (C7_transfer Env.ok 9 uSM ⟨"A", "W1", "W2", 2, none⟩ baseDB
      (by decide) (by decide) (by decide) (by decide)).2.2.2.2
      stockA5 (by decide) (by decide) (by decide) (by decide) (by decide) rfl
    simpa using h

/-- C1 (evaluating the code at the failing input): an order whose items list
names product A twice with quantity 3 each, against a ledger holding 5 of A
in W1, passes the validation pass — each duplicate is checked against the
same pre-transaction quantity — and then decrements the row twice, so the
call succeeds and leaves the (A, W1) quantity at −1, violating the
non-negativity invariant the claim states. -/
theorem C1_duplicate_items_oversell :
    isOkE (processOrderHandler Env.ok 0 uClient dupReq baseDB).1 = true
    ∧ quantityOf (processOrderHandler Env.ok 0 uClient dupReq baseDB).2 "A" "W1"
        = some (-1) := by
  decide

/-- C2 counterexample: at the spec's own example — 5 of A requested where 5
are held, 3 of B requested where 2 are held — the operation does fail whole
and mutates nothing, but the surfaced error is exactly
"Insufficient stock for product: Beans": it carries the offending product
name only, with neither the available quantity 2 nor the requested
quantity 3 anywhere in it, so the claim that the error names the available
vs. requested quantity is false. -/
theorem C2_counterexample :
    errOf (processOrderHandler Env.ok 0 uClient shortReq baseDB).1
      = some ⟨500, "INTERNAL_SERVER_ERROR",
          "Insufficient stock for product: Beans"⟩
    ∧ (processOrderHandler Env.ok 0 uClient shortReq baseDB).2 = baseDB
    ∧ "Insufficient stock for product: Beans".data.contains '2' = false
    ∧ "Insufficient stock for product: Beans".data.contains '3' = false := by
  decide

theorem valid_false_of_short (db : DB) (wid : String) :
    ∀ items : List OrderItemReq,
      (∃ item ∈ items, stockShort db wid item = true) →
      (validateStockAvailability db wid items).valid = false := by
  intro items
  induction items with
  | nil =>
    rintro ⟨item, hmem, _⟩
    cases hmem
  | cons it rest ih =>
    rintro ⟨item, hmem, hshort⟩
    simp only [validateStockAvailability]
    cases hf : findFirstStock db.stocks it.product_id wid with
    | none => rfl
    | some s =>
      by_cases hlt : s.quantity < it.quantity
      · simp [hlt]
      · simp only [if_neg hlt]
        rcases List.mem_cons.mp hmem with heq | hmemr
        · exfalso
          subst heq
          simp [stockShort, hf] at hshort
          exact hlt hshort
        · exact ih ⟨item, hmemr, hshort⟩

/-- C2 (amended): when some item is short — no ledger row for its product in
the warehouse, or quantity on hand below the requested quantity — the whole
operation fails with a single error and the database is returned untouched
(no order, no item, no ledger change, no payment; in particular the other
items' quantities are unchanged). The validation result records the
available and requested quantities internally, but the surfaced error
message names only the offending product. -/
theorem C2_amended_insufficient_stock (env : Env) (now : Nat) (user : User)
    (r : OrderRequest) (db : DB)
    (hrole : user.role = Role.client ∨ user.role = Role.admin)
    (hshort : ∃ item ∈ r.items, stockShort db r.warehouse_id item = true) :
    processOrderHandler env now user r db
      = (.error ⟨500, "INTERNAL_SERVER_ERROR",
          "Insufficient stock for product: " ++
            (validateStockAvailability db r.warehouse_id r.items).productName⟩,
         db) := by
  have hval := valid_false_of_short db r.warehouse_id r.items hshort
  have hrole' : ¬ (user.role ≠ Role.client ∧ user.role ≠ Role.admin) := by
    rcases hrole with h | h <;> simp [h]
  simp only [processOrderHandler, if_neg hrole', processOrderTx, hval,
    Bool.not_false, if_true]

/-- Witness for C2's amended theorem at the spec's example inputs. -/
theorem C2_witness :
    processOrderHandler Env.ok 0 uClient shortReq baseDB
      = (.error ⟨500, "INTERNAL_SERVER_ERROR",
          "Insufficient stock for product: " ++
            (validateStockAvailability baseDB shortReq.warehouse_id
              shortReq.items).productName⟩, baseDB) :=
  C2_amended_insufficient_stock Env.ok 0 uClient shortReq baseDB (Or.inl rfl)
    ⟨⟨"B", 3, 20⟩, by decide, by decide⟩

/-- C5 counterexample: the `receive_stock` transaction body credits the
(A, W1) ledger quantity from 5 to 12 while leaving `transaction_logs`
untouched — the audit entry is not part of the atomic unit that mutates the
quantity (it is appended only after the transaction commits). -/
theorem C5_counterexample_audit_outside_tx :
    quantityOf wfDBv "A" "W1" = some 5
    ∧ quantityOf (receiveStockTx 0 uSM approV wfDBv).1 "A" "W1" = some 12
    ∧ (receiveStockTx 0 uSM approV wfDBv).1.transaction_logs
        = wfDBv.transaction_logs := by
  decide

/-- C6 counterexample: with the post-commit `transaction_logs.create` call
failing, `receive_stock` surfaces a 500 internal error to the caller, yet
the committed mutation persists — the approvisionnement is `received` and
the ledger is credited 5 → 12 — so the failure is not swallowed as the
claim states. -/
theorem C6_counterexample_post_commit_failure_surfaced :
    errOf (workflowHandler envLogFail 0 uSM WfAction.receive_stock "ap-1"
        ⟨none⟩ wfDBv).1
      = some ⟨500, "INTERNAL_SERVER_ERROR", "Internal server error"⟩
    ∧ quantityOf (workflowHandler envLogFail 0 uSM WfAction.receive_stock
        "ap-1" ⟨none⟩ wfDBv).2 "A" "W1" = some 12
    ∧ (findAppro (workflowHandler envLogFail 0 uSM WfAction.receive_stock
        "ap-1" ⟨none⟩ wfDBv).2 "ap-1").map Appro.status
      = some ApproStatus.received := by
  decide

theorem findAppro_update_self (l : List Appro) (aid : String) (a : Appro)
    (f : Appro → Appro)
    (hf : ∀ t, (f t).approvisionnement_id = t.approvisionnement_id)
    (h : l.find? (fun t => t.approvisionnement_id == aid) = some a)
    (hkey : a.approvisionnement_id = aid) :
    (updateApproById l aid f).find? (fun t => t.approvisionnement_id == aid)
      = some (f a) := by
  rw [findAppro_update l aid aid f hf, h]
  simp [hkey]

theorem receiveStockTx_approvisionnements (now : Nat) (user : User) (a : Appro)
    (db : DB) :
    (receiveStockTx now user a db).1.approvisionnements
      = updateApproById db.approvisionnements a.approvisionnement_id
          (smUpdate ApproStatus.received user.id now) := by
  simp only [receiveStockTx]
  split <;> rfl

theorem receiveStockTx_transaction_logs (now : Nat) (user : User) (a : Appro)
    (db : DB) :
    (receiveStockTx now user a db).1.transaction_logs = db.transaction_logs := by
  simp only [receiveStockTx]
  split <;> rfl

theorem receiveStockTx_notifications (now : Nat) (user : User) (a : Appro)
    (db : DB) :
    (receiveStockTx now user a db).1.notifications = db.notifications := by
  simp only [receiveStockTx]
  split <;> rfl

theorem receiveStockTx_payments (now : Nat) (user : User) (a : Appro)
    (db : DB) :
    ∃ pid0, (receiveStockTx now user a db).1.payments
      = db.payments ++ [⟨pid0, none, some a.approvisionnement_id,
          a.quantity * a.proposed_price, PayMethod.direct,
          PaymentStatus.pending⟩] := by
  simp only [receiveStockTx]
  split
  · exact ⟨_, rfl⟩
  · exact ⟨_, rfl⟩

theorem receiveStockTx_quantity_present (now : Nat) (user : User) (a : Appro)
    (db : DB) (s : Stock)
    (hf : findFirstStock db.stocks a.product_id a.warehouse_id = some s) :
    quantityOf (receiveStockTx now user a db).1 a.product_id a.warehouse_id
      = some (s.quantity + a.quantity)
    ∧ unitPriceOf (receiveStockTx now user a db).1 a.product_id a.warehouse_id
      = some a.proposed_price := by
  have hup := findFirstStock_update_self db.stocks a.product_id
    a.warehouse_id s
    (fun st => { st with quantity := s.quantity + a.quantity,
                         unit_price := a.proposed_price,
                         last_updated := some now,
                         approvisionnement_id := some a.approvisionnement_id })
    (fun _ => rfl) (fun _ => rfl) hf
  simp only [receiveStockTx, hf, quantityOf, unitPriceOf]
  exact ⟨by simp [hup], by simp [hup]⟩

theorem receiveStockTx_quantity_absent (now : Nat) (user : User) (a : Appro)
    (db : DB)
    (hf : findFirstStock db.stocks a.product_id a.warehouse_id = none) :
    quantityOf (receiveStockTx now user a db).1 a.product_id a.warehouse_id
      = some a.quantity
    ∧ unitPriceOf (receiveStockTx now user a db).1 a.product_id a.warehouse_id
      = some a.proposed_price := by
  have happ := findFirstStock_append_none db.stocks
    [⟨db.next_id, a.product_id, a.warehouse_id, a.quantity, a.proposed_price,
      none, some a.approvisionnement_id⟩]
    a.product_id a.warehouse_id hf
  have hsingle := findFirstStock_singleton_self
    (⟨db.next_id, a.product_id, a.warehouse_id, a.quantity, a.proposed_price,
      none, some a.approvisionnement_id⟩ : Stock)
  simp only [receiveStockTx, hf, quantityOf, unitPriceOf]
  exact ⟨by simp [happ, hsingle], by simp [happ, hsingle]⟩

/-- Shape of a successful `receive_stock`: the handler returns the updated
approvisionnement and the committed transaction database with the audit
entry and the supplier notification appended after it. -/
theorem handleStockReceival_ok_eq (now : Nat) (user : User) (a : Appro)
    (data : WfData) (db : DB)
    (hrole : user.role = Role.stock_manager ∨ user.role = Role.admin)
    (hstatus : a.status = ApproStatus.validated_bd) :
    handleStockReceival Env.ok now user a data db
      = (.ok (smUpdate ApproStatus.received user.id now a),
         { (receiveStockTx now user a db).1 with
           transaction_logs := (receiveStockTx now user a db).1.transaction_logs
             ++ [⟨"approvisionnements", a.approvisionnement_id, "UPDATE",
                  user.id, .receiveStockLog a.status ApproStatus.received
                    a.quantity data.notes⟩],
           notifications := (receiveStockTx now user a db).1.notifications
             ++ [⟨a.supplier_id, "email",
                  "Your stock has been received and payment of " ++
                    toString (a.quantity * a.proposed_price) ++
                    " has been processed.", "sent"⟩] }) := by
  have hrole' : ¬ (user.role ≠ Role.stock_manager ∧ user.role ≠ Role.admin) := by
    rcases hrole with h | h <;> simp [h]
  have hst : ¬ a.status ≠ ApproStatus.validated_bd := by simp [hstatus]
  simp only [handleStockReceival, if_neg hrole', if_neg hst, createLog,
    createNotif, Env.ok, Bool.false_eq_true, not_false_eq_true, if_neg]
  rfl

/-- Shape of a successful `validate_bd`: the handler returns the updated
approvisionnement and the database with the row updated and the audit entry
and stock-manager notification appended. -/
theorem handleBusinessDeveloperValidation_ok_eq (now : Nat) (user : User)
    (a : Appro) (data : WfData) (db : DB)
    (hrole : user.role = Role.business_developer ∨ user.role = Role.admin)
    (hstatus : a.status = ApproStatus.pending) :
    handleBusinessDeveloperValidation Env.ok now user a data db
      = (.ok (bdUpdate ApproStatus.validated_bd user.id now a),
         { db with
           approvisionnements := updateApproById db.approvisionnements
             a.approvisionnement_id (bdUpdate ApproStatus.validated_bd user.id now),
           transaction_logs := db.transaction_logs
             ++ [⟨"approvisionnements", a.approvisionnement_id, "UPDATE",
                  user.id, .workflowAction "validate_bd" a.status
                    ApproStatus.validated_bd data.notes⟩],
           notifications := db.notifications
             ++ [⟨a.stock_manager_id.getD "stock-manager-id", "email",
                  "New approvisionnement validated by Business Developer: " ++
                    productName db a.product_id ++ " - " ++
                    toString a.quantity ++ " units", "sent"⟩] }) := by
  have hrole' : ¬ (user.role ≠ Role.business_developer ∧ user.role ≠ Role.admin) := by
    rcases hrole with h | h <;> simp [h]
  have hst : ¬ a.status ≠ ApproStatus.pending := by simp [hstatus]
  simp only [handleBusinessDeveloperValidation, if_neg hrole', if_neg hst,
    createLog, createNotif, Env.ok, Bool.false_eq_true, not_false_eq_true,
    if_neg]

/-- C3: a `receive_stock` call by a stock manager or admin on a
`validated_bd` approvisionnement succeeds: the approvisionnement becomes
`received` with the acting user recorded as stock manager; the
(product, warehouse) ledger row is upserted — incremented by the
approvisionnement quantity with its unit_price overwritten by the proposed
price when present, created with that quantity and price when absent — and
one Payment row with amount quantity × proposed_price, method direct,
status pending is appended. -/
theorem C3_receive_stock (now : Nat) (user : User) (aid : String)
    (data : WfData) (db : DB) (a : Appro)
    (hfind : findAppro db aid = some a)
    (hrole : user.role = Role.stock_manager ∨ user.role = Role.admin)
    (hstatus : a.status = ApproStatus.validated_bd) :
    (workflowHandler Env.ok now user WfAction.receive_stock aid data db).1
      = .ok (smUpdate ApproStatus.received user.id now a)
    ∧ findAppro
        (workflowHandler Env.ok now user WfAction.receive_stock aid data db).2 aid
      = some (smUpdate ApproStatus.received user.id now a)
    ∧ (∀ s, findFirstStock db.stocks a.product_id a.warehouse_id = some s →
        quantityOf
            (workflowHandler Env.ok now user WfAction.receive_stock aid data db).2
            a.product_id a.warehouse_id = some (s.quantity + a.quantity)
        ∧ unitPriceOf
            (workflowHandler Env.ok now user WfAction.receive_stock aid data db).2
            a.product_id a.warehouse_id = some a.proposed_price)
    ∧ (findFirstStock db.stocks a.product_id a.warehouse_id = none →
        quantityOf
            (workflowHandler Env.ok now user WfAction.receive_stock aid data db).2
            a.product_id a.warehouse_id = some a.quantity
        ∧ unitPriceOf
            (workflowHandler Env.ok now user WfAction.receive_stock aid data db).2
            a.product_id a.warehouse_id = some a.proposed_price)
    ∧ (∃ pid0,
        (workflowHandler Env.ok now user WfAction.receive_stock aid data db).2.payments
          = db.payments ++ [⟨pid0, none, some a.approvisionnement_id,
              a.quantity * a.proposed_price, PayMethod.direct,
              PaymentStatus.pending⟩]) := by
  have h0 : db.approvisionnements.find?
      (fun t => t.approvisionnement_id == aid) = some a := hfind
  have hkey : a.approvisionnement_id = aid := by
    have hbeq := List.find?_some h0
    simpa using hbeq
  have heq := handleStockReceival_ok_eq now user a data db hrole hstatus
  simp only [workflowHandler, hfind, heq]
  refine ⟨trivial, ?_, ?_, ?_, ?_⟩
  · simp only [findAppro, receiveStockTx_approvisionnements]
    rw [hkey]
    exact findAppro_update_self db.approvisionnements aid a _
      (fun _ => rfl) hfind hkey
  · intro s hf
    exact receiveStockTx_quantity_present now user a db s hf
  · intro hf
    exact receiveStockTx_quantity_absent now user a db hf
  · exact receiveStockTx_payments now user a db

/-- Witness for C3: receiving approvisionnement ap-1 (7 units of A at price 4)
into W1 which already holds 5 of A at price 10: the row becomes 12 at
price 4, a pending direct payment of 28 appears, and the approvisionnement
is received under the acting stock manager. -/
theorem C3_witness :
    (workflowHandler Env.ok 3 uSM WfAction.receive_stock "ap-1" ⟨none⟩ wfDBv).1
      = .ok (smUpdate ApproStatus.received "sm-1" 3 approV)
    ∧ findAppro
        (workflowHandler Env.ok 3 uSM WfAction.receive_stock "ap-1" ⟨none⟩ wfDBv).2
        "ap-1"
      = some (smUpdate ApproStatus.received "sm-1" 3 approV)
    ∧ quantityOf
        (workflowHandler Env.ok 3 uSM WfAction.receive_stock "ap-1" ⟨none⟩ wfDBv).2
        "A" "W1" = some 12
    ∧ unitPriceOf
        (workflowHandler Env.ok 3 uSM WfAction.receive_stock "ap-1" ⟨none⟩ wfDBv).2
        "A" "W1" = some 4
    ∧ (∃ pid0,
        (workflowHandler Env.ok 3 uSM WfAction.receive_stock "ap-1" ⟨none⟩ wfDBv).2.payments
          = wfDBv.payments ++ [⟨pid0, none, some "ap-1", 28,
              PayMethod.direct, PaymentStatus.pending⟩]) := by
  have h := C3_receive_stock 3 uSM "ap-1" ⟨none⟩ wfDBv approV
    (by decide) (Or.inl rfl) (by decide)
  have hq := h.2.2.1 stockA5 (by decide)
  refine ⟨h.1, h.2.1, ?_, ?_, ?_⟩
  · simpa using hq.1
  · simpa using hq.2
  · simpa using h.2.2.2.2

/-- C4: after `validate_bd` then `receive_stock` both succeed on the same
approvisionnement, a second `receive_stock` fails with the INVALID_STATUS
(state-conflict) response and performs no mutation, so across the whole
sequence the ledger is credited exactly once with the approvisionnement
quantity. -/
theorem C4_double_receive (now1 now2 now3 : Nat) (u1 u2 u3 : User)
    (aid : String) (d1 d2 d3 : WfData) (db : DB) (a : Appro)
    (hfind : findAppro db aid = some a)
    (hstatus : a.status = ApproStatus.pending)
    (h1 : u1.role = Role.business_developer ∨ u1.role = Role.admin)
    (h2 : u2.role = Role.stock_manager ∨ u2.role = Role.admin)
    (h3 : u3.role = Role.stock_manager ∨ u3.role = Role.admin) :
    let o1 := workflowHandler Env.ok now1 u1 WfAction.validate_bd aid d1 db
    let o2 := workflowHandler Env.ok now2 u2 WfAction.receive_stock aid d2 o1.2
    let o3 := workflowHandler Env.ok now3 u3 WfAction.receive_stock aid d3 o2.2
    isOkE o1.1 = true
    ∧ isOkE o2.1 = true
    ∧ o3.1 = .error ⟨400, "INVALID_STATUS",
        "Approvisionnement must be validated by Business Developer before stock can be received"⟩
    ∧ o3.2 = o2.2
    ∧ quantityOf o2.2 a.product_id a.warehouse_id
        = some ((quantityOf db a.product_id a.warehouse_id).getD 0 + a.quantity) := by
  intro o1 o2 o3
  have h0 : db.approvisionnements.find?
      (fun t => t.approvisionnement_id == aid) = some a := hfind
  have hkey : a.approvisionnement_id = aid := by
    have hbeq := List.find?_some h0
    simpa using hbeq
  have hv := handleBusinessDeveloperValidation_ok_eq now1 u1 a d1 db h1 hstatus
  have ho1 : o1 = handleBusinessDeveloperValidation Env.ok now1 u1 a d1 db := by
    show workflowHandler Env.ok now1 u1 WfAction.validate_bd aid d1 db = _
    simp only [workflowHandler, hfind]
  have fa1 : findAppro o1.2 aid
      = some (bdUpdate ApproStatus.validated_bd u1.id now1 a) := by
    rw [ho1, hv]
    simp only [findAppro]
    rw [show (updateApproById db.approvisionnements a.approvisionnement_id
      (bdUpdate ApproStatus.validated_bd u1.id now1))
        = updateApproById db.approvisionnements aid
            (bdUpdate ApproStatus.validated_bd u1.id now1) from by rw [hkey]]
    exact findAppro_update_self db.approvisionnements aid a _
      (fun _ => rfl) hfind hkey
  have fs1 : o1.2.stocks = db.stocks := by
    rw [ho1, hv]
  have hrcv := handleStockReceival_ok_eq now2 u2
    (bdUpdate ApproStatus.validated_bd u1.id now1 a) d2 o1.2 h2 rfl
  have ho2 : o2 = handleStockReceival Env.ok now2 u2
      (bdUpdate ApproStatus.validated_bd u1.id now1 a) d2 o1.2 := by
    show workflowHandler Env.ok now2 u2 WfAction.receive_stock aid d2 o1.2 = _
    simp only [workflowHandler, fa1]
  have hkey1 : (bdUpdate ApproStatus.validated_bd u1.id now1 a).approvisionnement_id
      = aid := hkey
  have fa2 : findAppro o2.2 aid
      = some (smUpdate ApproStatus.received u2.id now2
          (bdUpdate ApproStatus.validated_bd u1.id now1 a)) := by
    rw [ho2, hrcv]
    simp only [findAppro, receiveStockTx_approvisionnements]
    rw [show (updateApproById o1.2.approvisionnements
      (bdUpdate ApproStatus.validated_bd u1.id now1 a).approvisionnement_id
      (smUpdate ApproStatus.received u2.id now2))
        = updateApproById o1.2.approvisionnements aid
            (smUpdate ApproStatus.received u2.id now2) from by rw [hkey1]]
    exact findAppro_update_self o1.2.approvisionnements aid _ _
      (fun _ => rfl) fa1 hkey1
  have ho3 : o3 = handleStockReceival Env.ok now3 u3
      (smUpdate ApproStatus.received u2.id now2
        (bdUpdate ApproStatus.validated_bd u1.id now1 a)) d3 o2.2 := by
    show workflowHandler Env.ok now3 u3 WfAction.receive_stock aid d3 o2.2 = _
    simp only [workflowHandler, fa2]
  have hrole3 : ¬ (u3.role ≠ Role.stock_manager ∧ u3.role ≠ Role.admin) := by
    rcases h3 with h | h <;> simp [h]
  have ho3e : o3 = (.error ⟨400, "INVALID_STATUS",
      "Approvisionnement must be validated by Business Developer before stock can be received"⟩,
      o2.2) := by
    rw [ho3]
    simp only [handleStockReceival, if_neg hrole3]
    simp [smUpdate]
  refine ⟨?_, ?_, ?_, ?_, ?_⟩
  · rw [ho1, hv]
    rfl
  · rw [ho2, hrcv]
    rfl
  · rw [ho3e]
  · rw [ho3e]
  · rw [ho2, hrcv]
    cases hf : findFirstStock db.stocks a.product_id a.warehouse_id with
    | some s =>
      have hf1 : findFirstStock o1.2.stocks
          (bdUpdate ApproStatus.validated_bd u1.id now1 a).product_id
          (bdUpdate ApproStatus.validated_bd u1.id now1 a).warehouse_id
            = some s := by
        rw [fs1]
        exact hf
      have hq := (receiveStockTx_quantity_present now2 u2
        (bdUpdate ApproStatus.validated_bd u1.id now1 a) o1.2 s hf1).1
      have hdb : quantityOf db a.product_id a.warehouse_id = some s.quantity := by
        simp [quantityOf, hf]
      rw [hdb]
      exact hq
    | none =>
      have hf1 : findFirstStock o1.2.stocks
          (bdUpdate ApproStatus.validated_bd u1.id now1 a).product_id
          (bdUpdate ApproStatus.validated_bd u1.id now1 a).warehouse_id
            = none := by
        rw [fs1]
        exact hf
      have hq := (receiveStockTx_quantity_absent now2 u2
        (bdUpdate ApproStatus.validated_bd u1.id now1 a) o1.2 hf1).1
      have hdb : quantityOf db a.product_id a.warehouse_id = none := by
        simp [quantityOf, hf]
      rw [hdb]
      have hz : ((none : Option Int).getD 0 + a.quantity) = a.quantity := by
        simp
      rw [hz]
      exact hq

/-- Witness for C4: validate then receive then receive again on ap-1 — the
first two calls succeed, the third returns the INVALID_STATUS conflict and
changes nothing, and the (A, W1) ledger went from 5 to 12 exactly once. -/
theorem C4_witness :
    isOkE (workflowHandler Env.ok 1 uBD WfAction.validate_bd "ap-1" ⟨none⟩ wfDB).1
      = true
    ∧ isOkE (workflowHandler Env.ok 2 uSM WfAction.receive_stock "ap-1" ⟨none⟩
        (workflowHandler Env.ok 1 uBD WfAction.validate_bd "ap-1" ⟨none⟩ wfDB).2).1
      = true
    ∧ (workflowHandler Env.ok 3 uSM WfAction.receive_stock "ap-1" ⟨none⟩
        (workflowHandler Env.ok 2 uSM WfAction.receive_stock "ap-1" ⟨none⟩
          (workflowHandler Env.ok 1 uBD WfAction.validate_bd "ap-1" ⟨none⟩ wfDB).2).2).1
      = .error ⟨400, "INVALID_STATUS",
          "Approvisionnement must be validated by Business Developer before stock can be received"⟩
    ∧ (workflowHandler Env.ok 3 uSM WfAction.receive_stock "ap-1" ⟨none⟩
        (workflowHandler Env.ok 2 uSM WfAction.receive_stock "ap-1" ⟨none⟩
          (workflowHandler Env.ok 1 uBD WfAction.validate_bd "ap-1" ⟨none⟩ wfDB).2).2).2
      = (workflowHandler Env.ok 2 uSM WfAction.receive_stock "ap-1" ⟨none⟩
          (workflowHandler Env.ok 1 uBD WfAction.validate_bd "ap-1" ⟨none⟩ wfDB).2).2
    ∧ quantityOf (workflowHandler Env.ok 2 uSM WfAction.receive_stock "ap-1" ⟨none⟩
        (workflowHandler Env.ok 1 uBD WfAction.validate_bd "ap-1" ⟨none⟩ wfDB).2).2
        "A" "W1"
      = some ((quantityOf wfDB "A" "W1").getD 0 + 7) := by
  have h := C4_double_receive 1 2 3 uBD uSM uSM "ap-1" ⟨none⟩ ⟨none⟩ ⟨none⟩
    wfDB appro7 (by decide) (by decide) (Or.inl rfl) (Or.inl rfl) (Or.inl rfl)
  simpa using h

theorem createItemsAndDecrement_logs (now oid : Nat) (wid : String) :
    ∀ (items : List OrderItemReq) (db : DB),
      (createItemsAndDecrement now oid wid items db).transaction_logs
        = db.transaction_logs := by
  intro items
  induction items with
  | nil =>
    intro db
    rfl
  | cons item rest ih =>
    intro db
    simp only [createItemsAndDecrement]
    rw [ih]
    split <;> rfl

/-- C5 (amended): `adjust` and `transfer` mutate the ledger quantity inside a
transaction that also writes exactly one audit entry; `receive_stock` and
`process_order` mutate the quantity inside a transaction that writes no
audit entry at all — their single audit entry is appended only after the
transaction has committed (shown for both: the last two parts exhibit the
post-commit append of the full `receive_stock` and `process_order`
handlers). -/
theorem C5_amended_audit_placement :
    (∀ (env : Env) (now : Nat) (user : User) (data : AdjustRequest) (db : DB)
        (cs : Stock),
      findFirstStock db.stocks data.product_id data.warehouse_id = some cs →
      0 ≤ cs.quantity + data.quantity → env.log_create_fails = false →
      (txDB (adjustTx env now user data db) db).transaction_logs
        = db.transaction_logs ++ [⟨"stocks", toString cs.stock_id, "UPDATE",
            user.id, .stockAdjustment data.product_id data.warehouse_id
              cs.quantity data.quantity (cs.quantity + data.quantity)
              (data.reason.getD "Manual adjustment")⟩])
    ∧ (∀ (env : Env) (now : Nat) (user : User) (data : TransferRequest)
        (db : DB) (s : Stock),
      findFirstStock db.stocks data.product_id data.from_warehouse_id = some s →
      data.quantity ≤ s.quantity → env.log_create_fails = false →
      (txDB (transferTx env now user data db) db).transaction_logs
        = db.transaction_logs ++ [⟨"stocks", toString s.stock_id, "UPDATE",
            user.id, .stockTransfer data.product_id data.from_warehouse_id
              data.to_warehouse_id data.quantity
              (data.reason.getD "Manual transfer")⟩])
    ∧ (∀ (now : Nat) (user : User) (a : Appro) (db : DB),
      (receiveStockTx now user a db).1.transaction_logs = db.transaction_logs)
    ∧ (∀ (now : Nat) (r : OrderRequest) (db : DB),
      (txDB (processOrderTx now r db) db).transaction_logs
        = db.transaction_logs)
    ∧ (∀ (now : Nat) (user : User) (a : Appro) (data : WfData) (db : DB),
      user.role = Role.stock_manager ∨ user.role = Role.admin →
      a.status = ApproStatus.validated_bd →
      (handleStockReceival Env.ok now user a data db).2.transaction_logs
        = (receiveStockTx now user a db).1.transaction_logs
          ++ [⟨"approvisionnements", a.approvisionnement_id, "UPDATE", user.id,
               .receiveStockLog a.status ApproStatus.received a.quantity
                 data.notes⟩])
    ∧ (∀ (now : Nat) (user : User) (r : OrderRequest) (db : DB),
      user.role = Role.client ∨ user.role = Role.admin →
      (validateStockAvailability db r.warehouse_id r.items).valid = true →
      (processOrderHandler Env.ok now user r db).2.transaction_logs
        = (txDB (processOrderTx now r db) db).transaction_logs
          ++ [⟨"orders", toString db.next_id, "CREATE", user.id,
               .processOrderLog (totalAmount r.items) r.items.length
                 r.delivery_option r.payment_method⟩]) := by
  refine ⟨?_, ?_, ?_, ?_, ?_, ?_⟩
  · intro env now user data db cs hfind hpos henv
    have hnn : ¬ cs.quantity + data.quantity < 0 := not_lt.mpr hpos
    simp only [adjustTx, hfind, if_neg hnn, createLog, henv,
      Bool.false_eq_true, not_false_eq_true, if_neg, txDB]
  · intro env now user data db s hfind hle henv
    have hnlt : ¬ s.quantity < data.quantity := not_lt.mpr hle
    simp only [transferTx, hfind, if_neg hnlt, createLog, henv,
      Bool.false_eq_true, not_false_eq_true, if_neg, txDB]
    split <;> rfl
  · intro now user a db
    exact receiveStockTx_transaction_logs now user a db
  · intro now r db
    simp only [processOrderTx]
    split
    · rfl
    · simp only [txDB]
      cases hd : r.delivery_option <;>
        simp [hd, createItemsAndDecrement_logs]
  · intro now user a data db hrole hstatus
    rw [handleStockReceival_ok_eq now user a data db hrole hstatus]
  · intro now user r db hrole hvalid
    have hrole' : ¬ (user.role ≠ Role.client ∧ user.role ≠ Role.admin) := by
      rcases hrole with h | h <;> simp [h]
    simp only [processOrderHandler, if_neg hrole', processOrderTx, hvalid,
      Bool.not_true, Bool.false_eq_true, not_false_eq_true, if_neg, createLog,
      createNotif, Env.ok, if_true, txDB]

/-- Witness for C5's amended theorem: a concrete adjust writes its audit
entry inside the transaction, while the concrete `receive_stock` and
`process_order` transactions leave the audit log untouched and the full
handlers append the single entry after commit. -/
theorem C5_witness :
    (txDB (adjustTx Env.ok 9 uSM ⟨"A", "W1", -2, none⟩ baseDB) baseDB).transaction_logs
      = baseDB.transaction_logs ++ [⟨"stocks", "1", "UPDATE", "sm-1",
          .stockAdjustment "A" "W1" 5 (-2) 3 "Manual adjustment"⟩]
    ∧ (receiveStockTx 2 uSM approV wfDBv).1.transaction_logs
        = wfDBv.transaction_logs
    ∧ (handleStockReceival Env.ok 2 uSM approV ⟨none⟩ wfDBv).2.transaction_logs
        = (receiveStockTx 2 uSM approV wfDBv).1.transaction_logs
          ++ [⟨"approvisionnements", "ap-1", "UPDATE", "sm-1",
               .receiveStockLog ApproStatus.validated_bd ApproStatus.received
                 7 none⟩]
    ∧ (processOrderHandler Env.ok 0 uClient okReq baseDB).2.transaction_logs
        = (txDB (processOrderTx 0 okReq baseDB) baseDB).transaction_logs
          ++ [⟨"orders", "100", "CREATE", "client-1",
               .processOrderLog 20 1 false PayMethod.direct⟩] := by
  refine ⟨?_, ?_, ?_, ?_⟩
  · have h := C5_amended_audit_placement.1 Env.ok 9 uSM ⟨"A", "W1", -2, none⟩
      baseDB stockA5 (by decide) (by decide) rfl
    simpa using h
  · exact C5_amended_audit_placement.2.2.1 2 uSM approV wfDBv
  · have h := C5_amended_audit_placement.2.2.2.2.1 2 uSM approV ⟨none⟩ wfDBv
      (Or.inl rfl) (by decide)
    simpa using h
  · have h := C5_amended_audit_placement.2.2.2.2.2 0 uClient okReq baseDB
      (Or.inl rfl) (by decide)
    simpa using h

/-- C6 (amended): once the primary mutating transaction has committed, a
failure in the subsequent audit-log append or notification creation is NOT
swallowed — the caller receives a 500 internal error — while the committed
mutation itself persists: the returned state is the committed transaction
database plus whichever post-commit writes had already succeeded, never a
rollback. Shown for `receive_stock` and `process_order`, each under a
failing audit-log append and under a failing notification creation. -/
theorem C6_amended_post_commit_failure :
    (∀ (env : Env) (now : Nat) (user : User) (aid : String) (data : WfData)
        (db : DB) (a : Appro),
      findAppro db aid = some a → a.status = ApproStatus.validated_bd →
      user.role = Role.stock_manager ∨ user.role = Role.admin →
      env.log_create_fails = true →
      workflowHandler env now user WfAction.receive_stock aid data db
        = (.error ⟨500, "INTERNAL_SERVER_ERROR", "Internal server error"⟩,
           (receiveStockTx now user a db).1))
    ∧ (∀ (env : Env) (now : Nat) (user : User) (aid : String) (data : WfData)
        (db : DB) (a : Appro),
      findAppro db aid = some a → a.status = ApproStatus.validated_bd →
      user.role = Role.stock_manager ∨ user.role = Role.admin →
      env.log_create_fails = false → env.notification_create_fails = true →
      workflowHandler env now user WfAction.receive_stock aid data db
        = (.error ⟨500, "INTERNAL_SERVER_ERROR", "Internal server error"⟩,
           { (receiveStockTx now user a db).1 with
             transaction_logs :=
               (receiveStockTx now user a db).1.transaction_logs
                 ++ [⟨"approvisionnements", a.approvisionnement_id, "UPDATE",
                      user.id, .receiveStockLog a.status ApproStatus.received
                        a.quantity data.notes⟩] }))
    ∧ (∀ (env : Env) (now : Nat) (user : User) (r : OrderRequest) (db : DB),
      user.role = Role.client ∨ user.role = Role.admin →
      (validateStockAvailability db r.warehouse_id r.items).valid = true →
      env.log_create_fails = true →
      processOrderHandler env now user r db
        = (.error ⟨500, "INTERNAL_SERVER_ERROR",
            "transaction_logs.create failed"⟩,
           txDB (processOrderTx now r db) db))
    ∧ (∀ (env : Env) (now : Nat) (user : User) (r : OrderRequest) (db : DB),
      user.role = Role.client ∨ user.role = Role.admin →
      (validateStockAvailability db r.warehouse_id r.items).valid = true →
      env.log_create_fails = false → env.notification_create_fails = true →
      processOrderHandler env now user r db
        = (.error ⟨500, "INTERNAL_SERVER_ERROR",
            "notifications.create failed"⟩,
           { txDB (processOrderTx now r db) db with
             transaction_logs :=
               (txDB (processOrderTx now r db) db).transaction_logs
                 ++ [⟨"orders", toString db.next_id, "CREATE", user.id,
                      .processOrderLog (totalAmount r.items) r.items.length
                        r.delivery_option r.payment_method⟩] })) := by
  refine ⟨?_, ?_, ?_, ?_⟩
  · intro env now user aid data db a hfind hstatus hrole henv
    have hrole' : ¬ (user.role ≠ Role.stock_manager ∧ user.role ≠ Role.admin) := by
      rcases hrole with h | h <;> simp [h]
    have hst : ¬ a.status ≠ ApproStatus.validated_bd := by simp [hstatus]
    simp only [workflowHandler, hfind, handleStockReceival, if_neg hrole',
      if_neg hst, createLog, henv, if_true]
  · intro env now user aid data db a hfind hstatus hrole henvl henvn
    have hrole' : ¬ (user.role ≠ Role.stock_manager ∧ user.role ≠ Role.admin) := by
      rcases hrole with h | h <;> simp [h]
    have hst : ¬ a.status ≠ ApproStatus.validated_bd := by simp [hstatus]
    simp only [workflowHandler, hfind, handleStockReceival, if_neg hrole',
      if_neg hst, createLog, henvl, Bool.false_eq_true, not_false_eq_true,
      if_neg, createNotif, henvn, if_true]
  · intro env now user r db hrole hvalid henv
    have hrole' : ¬ (user.role ≠ Role.client ∧ user.role ≠ Role.admin) := by
      rcases hrole with h | h <;> simp [h]
    simp only [processOrderHandler, if_neg hrole', processOrderTx, hvalid,
      Bool.not_true, Bool.false_eq_true, not_false_eq_true, if_neg, createLog,
      henv, if_true, txDB]
  · intro env now user r db hrole hvalid henvl henvn
    have hrole' : ¬ (user.role ≠ Role.client ∧ user.role ≠ Role.admin) := by
      rcases hrole with h | h <;> simp [h]
    simp only [processOrderHandler, if_neg hrole', processOrderTx, hvalid,
      Bool.not_true, Bool.false_eq_true, not_false_eq_true, if_neg, createLog,
      henvl, createNotif, henvn, if_true, txDB]

/-- Witness for C6's amended theorem: concrete runs in which the post-commit
audit append fails, and in which the post-commit notification creation
fails, for both `receive_stock` and `process_order`. -/
theorem C6_witness :
    (workflowHandler envLogFail 4 uSM WfAction.receive_stock "ap-1" ⟨none⟩ wfDBv
      = (.error ⟨500, "INTERNAL_SERVER_ERROR", "Internal server error"⟩,
         (receiveStockTx 4 uSM approV wfDBv).1))
    ∧ (workflowHandler envNotifFail 4 uSM WfAction.receive_stock "ap-1" ⟨none⟩ wfDBv
      = (.error ⟨500, "INTERNAL_SERVER_ERROR", "Internal server error"⟩,
         { (receiveStockTx 4 uSM approV wfDBv).1 with
           transaction_logs :=
             (receiveStockTx 4 uSM approV wfDBv).1.transaction_logs
               ++ [⟨"approvisionnements", "ap-1", "UPDATE", "sm-1",
                    .receiveStockLog ApproStatus.validated_bd
                      ApproStatus.received 7 none⟩] }))
    ∧ (processOrderHandler envNotifFail 0 uClient okReq baseDB
      = (.error ⟨500, "INTERNAL_SERVER_ERROR", "notifications.create failed"⟩,
         { txDB (processOrderTx 0 okReq baseDB) baseDB with
           transaction_logs :=
             (txDB (processOrderTx 0 okReq baseDB) baseDB).transaction_logs
               ++ [⟨"orders", "100", "CREATE", "client-1",
                    .processOrderLog 20 1 false PayMethod.direct⟩] })) := by
  refine ⟨?_, ?_, ?_⟩
  · exact C6_amended_post_commit_failure.1 envLogFail 4 uSM "ap-1" ⟨none⟩
      wfDBv approV (by decide) (by decide) (Or.inl rfl) rfl
  · have h := C6_amended_post_commit_failure.2.1 envNotifFail 4 uSM "ap-1"
      ⟨none⟩ wfDBv approV (by decide) (by decide) (Or.inl rfl) rfl rfl
    simpa using h
  · have h := C6_amended_post_commit_failure.2.2.2 envNotifFail 0 uClient
      okReq baseDB (Or.inl rfl) (by decide) rfl rfl
    simpa using h

end Agro
